import Mathlib

/-!
Shallow embedding of the wizard/cart core of the openweb-frontend repository
(Angular bill-payment checkout application), together with proofs about the
properties its specification states.

Embedded components:
* data model (`core/models/carrito.model.ts`),
* the Cart Store (`core/services/cart.service.ts`),
* the debt-collection wizard (`cobranza-wizard` component),
* the checkout wizard (`checkout-wizard.ts`),
* the confirmation-modal service (`core/services/confirmation-modal.service.ts`),
* the fingerprint service (`fingerprint.service`).

Monetary amounts are modelled as rationals (the source uses decimal.js-light
exact decimals); timestamps as naturals; `sessionStorage` as explicit fields of
the state records.  Asynchronous backend calls are modelled by passing the
response (or a transport error) as an explicit argument to the handler that
consumes it.
-/

namespace OpenWeb

/-- Billing information (`DatosFacturacion`, carrito.model.ts). -/
structure DatosFacturacion where
  tipoDocumento : Int
  complementoDocumento : String
  numeroDocumento : String
  nombreRazonsocial : String
  correoElectronico : String
  numeroTelefono : String
  deriving Repr, DecidableEq

/-- Selected debt period (`DeudaSeleccionada`, carrito.model.ts). -/
structure DeudaSeleccionada where
  documentoPago : String
  periodoGestion : Int
  periodoMes : Int
  periodoCobro : String
  periodoServicio : ℚ
  periodoComision : ℚ
  periodoTotal : ℚ
  periodoCode : String
  deriving Repr, DecidableEq

/-- Cart line item (`ItemCarrito`, carrito.model.ts).  A missing
`abreviacionMoneda` in a persisted legacy JSON blob is modelled as the empty
string: both `undefined` and `""` are falsy in the migration check of
`loadCart`. -/
structure ItemCarrito where
  fechaAdicion : Nat
  aliasServicio : String
  nombreServicio : String
  abreviacionMoneda : String
  descripcionDocOficial : String
  codigoDeuda : String
  codigoContrato : String
  nombreAsociado : String
  datosFacturacion : DatosFacturacion
  totalServicio : ℚ
  totalComision : ℚ
  totalGeneral : ℚ
  deudasSeleccionadas : List DeudaSeleccionada
  deriving Repr, DecidableEq

/-- Session-bound cart aggregate (`Carrito`, carrito.model.ts). -/
structure Carrito where
  sessionId : String
  items : List ItemCarrito
  createdAt : Nat
  updatedAt : Nat
  deriving Repr, DecidableEq

/-- Content of `sessionStorage[STORAGE_KEY]` as seen through
`JSON.parse`: the key can be absent, hold an unparsable blob (`corrupt`,
making `JSON.parse` throw), or hold a parsed cart. -/
inductive StoredCart where
  | absent : StoredCart
  | corrupt : StoredCart
  | stored (c : Carrito) : StoredCart
  deriving Repr, DecidableEq

/-- State owned by `CartService`: the in-memory `cart` signal plus the two
`sessionStorage` keys it reads and writes (`redis_cart_items` and
`redis_session_id`). -/
structure CartState where
  cart : Option Carrito
  storedCart : StoredCart
  storedSessionId : Option String
  deriving Repr, DecidableEq

namespace CartState

/-- `items` computed signal: `this.cart()?.items ?? []`. -/
def items (s : CartState) : List ItemCarrito :=
  (s.cart.map Carrito.items).getD []

/-- `saveCart` (cart.service.ts): writes the current cart to session storage
when it is non-null. -/
def saveCart (s : CartState) : CartState :=
  match s.cart with
  | some c => { s with storedCart := .stored c }
  | none => s

/-- `clearCart` (cart.service.ts): nulls the cart signal and removes the
cart blob from session storage.  The session-id key is not touched. -/
def clearCart (s : CartState) : CartState :=
  { s with cart := none, storedCart := .absent }

/-- `getOrCreateSessionId` (cart.service.ts).  `freshId` models the value
`generateSessionId()` would produce if a new id is needed. -/
def getOrCreateSessionId (s : CartState) (freshId : String) : String × CartState :=
  match s.storedSessionId with
  | some sid => (sid, s)
  | none => (freshId, { s with storedSessionId := some freshId })

/-- `addItem` (cart.service.ts).  `now` models `Date.now()`.  Storage writes
are modelled as succeeding (a throwing `sessionStorage.setItem` only flips the
returned boolean in the source; the in-memory cart is updated before the
write either way). -/
def addItem (s : CartState) (item : ItemCarrito) (now : Nat) (freshId : String) :
    CartState × Bool :=
  let (sessionId, s1) := s.getOrCreateSessionId freshId
  let newCart : Carrito :=
    { sessionId := sessionId
      items := match s1.cart with
        | some c => c.items ++ [item]
        | none => [item]
      createdAt := (s1.cart.map Carrito.createdAt).getD now
      updatedAt := now }
  (({ s1 with cart := some newCart } : CartState).saveCart, true)

/-- Indexed filter mirroring `items.filter((_, i) => i !== index)`; the
counter `i` is the running array index of the JavaScript callback. -/
def filterOutIndex (index : Int) (i : Nat) : List ItemCarrito → List ItemCarrito
  | [] => []
  | x :: xs =>
    if (i : Int) ≠ index then x :: filterOutIndex index (i + 1) xs
    else filterOutIndex index (i + 1) xs

/-- `removeItem` (cart.service.ts). -/
def removeItem (s : CartState) (index : Int) (now : Nat) : CartState :=
  match s.cart with
  | none => s
  | some c =>
    let newItems := filterOutIndex index 0 c.items
    if newItems = [] then s.clearCart
    else
      let newCart : Carrito := { c with items := newItems, updatedAt := now }
      ({ s with cart := some newCart } : CartState).saveCart

/-- `replaceItem` (cart.service.ts). -/
def replaceItem (s : CartState) (index : Int) (newItem : ItemCarrito) (now : Nat) :
    CartState × Bool :=
  match s.cart with
  | none => (s, false)
  | some c =>
    if index < 0 ∨ (c.items.length : Int) ≤ index then (s, false)
    else
      let newCart : Carrito :=
        { c with items := c.items.set index.toNat newItem, updatedAt := now }
      (({ s with cart := some newCart } : CartState).saveCart, true)

/-- `canAddItemWithCurrency` (cart.service.ts): empty cart allows any
currency, otherwise the new currency is compared against the first item's. -/
def canAddItemWithCurrency (s : CartState) (abreviacionMoneda : String) :
    Bool × Option String :=
  match s.items with
  | [] => (true, none)
  | x :: _ => (x.abreviacionMoneda = abreviacionMoneda, some x.abreviacionMoneda)

/-- Migration step of `loadCart`: items whose `abreviacionMoneda` is falsy
(absent or empty) get the default currency. -/
def migrateItem (it : ItemCarrito) : ItemCarrito :=
  if it.abreviacionMoneda = "" then { it with abreviacionMoneda := "Bs." } else it

/-- `validateSession` (cart.service.ts): the blob's session id must equal the
session id currently stored under `redis_session_id`. -/
def validateSession (s : CartState) (cartSessionId : String) : Bool :=
  s.storedSessionId = some cartSessionId

/-- `loadCart` (cart.service.ts): reads the persisted blob; a parse failure
or a session-id mismatch discards it via `clearCart`; otherwise legacy items
are migrated and the cart signal is set. -/
def loadCart (s : CartState) : CartState :=
  match s.storedCart with
  | .absent => s
  | .corrupt => s.clearCart
  | .stored c =>
    let migrated : Carrito := { c with items := c.items.map migrateItem }
    if s.validateSession migrated.sessionId then { s with cart := some migrated }
    else s.clearCart

end CartState

/-- Currency-consistency invariant of the cart: every two items share the
same `abreviacionMoneda` (spec section 3, `Carrito` invariant). -/
def currencyConsistent (items : List ItemCarrito) : Prop :=
  ∀ x ∈ items, ∀ y ∈ items, x.abreviacionMoneda = y.abreviacionMoneda

instance : DecidablePred currencyConsistent := fun items =>
  List.decidableBAll _ items

/-- Cart-level currency invariant. -/
def cartInv (s : CartState) : Prop :=
  currencyConsistent s.items

instance : DecidablePred cartInv := fun s =>
  inferInstanceAs (Decidable (currencyConsistent s.items))

/-- Model of JavaScript `String.prototype.trim`: strips leading and trailing
whitespace (implemented over the character list so that concrete instances
evaluate inside the kernel). -/
def jsTrim (s : String) : String :=
  ⟨((s.data.dropWhile Char.isWhitespace).reverse.dropWhile Char.isWhitespace).reverse⟩

/-! ## Debt-collection wizard: cascading debt selection (cobranza-wizard) -/

/-- Body of the cascade loops of `toggleDeuda`: position `i` of the copied
flag array receives `true` when checking with `i ≤ index`, `false` when
unchecking with `index ≤ i`, and keeps its previous value otherwise.  `i` is
the running index of the traversal (0 at the call site). -/
def cascadeAux (checked : Bool) (index : Nat) (i : Nat) : List Bool → List Bool
  | [] => []
  | b :: bs =>
    (if checked then (if i ≤ index then true else b)
     else (if index ≤ i then false else b)) :: cascadeAux checked index (i + 1) bs

/-- `toggleDeuda` (cobranza-wizard component): cascading toggle of the
`selectedDebts` flags.  Checking index N sets indices 0..N to true; unchecking
index N sets indices N..end to false.  Agrees with the source's in-place loops
for every in-range index (the component only ever passes indices of existing
debts). -/
def toggleDeuda (flags : List Bool) (index : Nat) (checked : Bool) : List Bool :=
  cascadeAux checked index 0 flags

/-- `toggleTodasDeudas` (cobranza-wizard component): sets every flag. -/
def toggleTodasDeudas (debts : List DeudaSeleccionada) (checked : Bool) : List Bool :=
  debts.map (fun _ => checked)

/-! ## Debt-collection wizard: search / contract-selection state machine -/

/-- Associate data (`DatosAsociado`, servicio-wizard.model.ts). -/
structure DatosAsociado where
  codigoDeuda : String
  codigoAsociado : String
  nombreAsociado : String
  tipoDocumento : Int
  numeroDocumento : String
  complementoDocumento : String
  nombreRazonsocial : String
  correoElectronico : String
  numeroTelefono : String
  deriving Repr, DecidableEq

/-- Contract (`Contrato`, servicio-wizard.model.ts). -/
structure Contrato where
  codigoContrato : String
  checksumContrato : String
  datosAsociado : DatosAsociado
  deriving Repr, DecidableEq

/-- Pending payment period (`PagoPendiente`, servicio-wizard.model.ts). -/
structure PagoPendiente where
  documentoPago : String
  periodoGestion : Int
  periodoMes : Int
  periodoCobro : String
  periodoServicio : ℚ
  periodoComision : ℚ
  periodoTotal : ℚ
  periodoCode : String
  deriving Repr, DecidableEq

/-- Result of a backend call as the subscriber sees it: a delivered response,
or a transport-level error routed to `handleApiError` (whose `handledByModal`
flag records whether the error-modal service recognised the error envelope). -/
inductive ApiResult (α : Type) where
  | ok (response : α) : ApiResult α
  | err (handledByModal : Bool) : ApiResult α
  deriving Repr, DecidableEq

/-- Shape of `ContratosResponse` as consulted by `consultContracts`:
`contratosAsociado = none` models a missing `data`/`contratosAsociado` field. -/
structure ContratosResponse where
  success : Bool
  contratosAsociado : Option (List Contrato)
  deriving Repr, DecidableEq

/-- Shape of `DeudasResponse` as consulted by `consultDebts$`:
`pagosPendientes = none` models a missing `data`/`pagosPendientes` field
(note an empty `pagosPendientes` array is truthy in the source's check). -/
structure DeudasResponse where
  success : Bool
  pagosPendientes : Option (List PagoPendiente)
  deriving Repr, DecidableEq

/-- Ephemeral state of the cobranza wizard component. -/
structure CobranzaState where
  currentStep : Nat
  loading : Bool
  errors : List String
  codigoDeuda : String
  contracts : List Contrato
  selectedContract : Option Contrato
  outstandingDebts : List PagoPendiente
  selectedDebts : List Bool
  associateData : Option DatosAsociado
  deriving Repr, DecidableEq

namespace CobranzaState

/-- `addError` (cobranza-wizard component). -/
def addError (s : CobranzaState) (msg : String) : CobranzaState :=
  { s with errors := s.errors ++ [msg] }

/-- `clearErrors` (cobranza-wizard component). -/
def clearErrors (s : CobranzaState) : CobranzaState :=
  { s with errors := [] }

/-- `handleApiError` (cobranza-wizard component): fall back to an inline
message when the error modal did not recognise the error envelope. -/
def handleApiError (s : CobranzaState) (handledByModal : Bool)
    (fallbackMessage : String) : CobranzaState :=
  if handledByModal then s else s.addError fallbackMessage

/-- Tap of `consultDebts$`: on a response carrying a `pagosPendientes` field
the debts, flags (all pre-selected) and associate data are stored; otherwise
the lists are emptied; either way the wizard lands in step 3. -/
def consultDebtsTap (s : CobranzaState) (contract : Contrato)
    (response : DeudasResponse) : CobranzaState :=
  match response.pagosPendientes, response.success with
  | some debts, true =>
    { s with outstandingDebts := debts
             associateData := some contract.datosAsociado
             selectedDebts := debts.map (fun _ => true)
             currentStep := 3 }
  | _, _ =>
    { s with outstandingDebts := [], selectedDebts := [], currentStep := 3 }

/-- `consultContracts` (cobranza-wizard component), big-step over the whole
subscription.  `debtsResult` is consumed only on the single-contract branch
(where `consultDebts$` is chained via `switchMap`); a transport error from
either call lands in the shared `catchError`.  The second component of the
result lists the values assigned to `currentStep` during the run, in order,
so that "never visibly entering step 2" is expressible.  The `loading` flag
is set during the call and reset by `finalize`; its net effect is identity
and it is left unchanged. -/
def consultContracts (s : CobranzaState)
    (contractsResult : ApiResult ContratosResponse)
    (debtsResult : ApiResult DeudasResponse) : CobranzaState × List Nat :=
  if s.loading then (s, [])
  else if jsTrim s.codigoDeuda = "" then
    (s.addError "Ingrese el código de socio", [])
  else
    let s1 := s.clearErrors
    match contractsResult with
    | .err handled => (s1.handleApiError handled "Error al consultar contratos", [])
    | .ok response =>
      match response.contratosAsociado, response.success with
      | some (c :: cs), true =>
        let s2 := { s1 with contracts := c :: cs }
        match cs with
        | [] =>
          let s3 := { s2 with selectedContract := some c }
          match debtsResult with
          | .err handled =>
            (s3.handleApiError handled "Error al consultar contratos", [])
          | .ok debtsResponse => (s3.consultDebtsTap c debtsResponse, [3])
        | _ => ({ s2 with currentStep := 2 }, [2])
      | _, _ => (s1.addError "No se encontraron contratos", [])

end CobranzaState

/-! ## Fingerprint service (FingerprintService) -/

/-- Cache TTL of the fingerprint service: 5 minutes in milliseconds. -/
def fingerprintCacheDuration : Nat := 5 * 60 * 1000

/-- Persisted fingerprint cache entry (`FingerprintCache`). -/
structure FingerprintCache where
  fingerprint : String
  timestamp : Nat
  deriving Repr, DecidableEq

/-- `getCached` (FingerprintService): returns the cached digest unless the
entry is absent, unparsable (both modelled by `none`) or older than the TTL. -/
def getCachedFp (cache : Option FingerprintCache) (now : Nat) : Option String :=
  match cache with
  | none => none
  | some entry =>
    if fingerprintCacheDuration < now - entry.timestamp then none
    else some entry.fingerprint

/-- `generate` (FingerprintService), big-step: serve from the TTL cache when
possible, otherwise hash the collected components.  `digest = some d` models a
successful SHA-256 digest of the serialized components; `digest = none` models
every degraded path (missing `crypto.subtle`, a thrown collection or digest
error), all of which the source catches and maps to the empty string.  The
function is total: generation always completes with a digest or `""`. -/
def fingerprintGenerate (cache : Option FingerprintCache) (now : Nat)
    (digest : Option String) : String :=
  match getCachedFp cache now with
  | some cached => cached
  | none => digest.getD ""

/-! ## Checkout wizard (checkout-wizard.ts) -/

/-- Character class `[^\s@]` of the email regex. -/
def emailChar (c : Char) : Bool :=
  !c.isWhitespace && c != '@'

/-- Test of the anchored email regex of `validateBillingShipping`:
the string must be a nonempty run of non-whitespace non-@ characters, an `@`,
and a non-whitespace non-@ tail containing a dot that is neither its first
nor its last character (the dot splits the tail into the two nonempty
`[^\s@]+` groups; since that class excludes `@`, matching forces the split at
the unique `@`). -/
def emailRegexTest (email : String) : Bool :=
  let cs := email.data
  let localPart := cs.takeWhile (fun c => c != '@')
  match cs.dropWhile (fun c => c != '@') with
  | [] => false
  | _ :: domainPart =>
    !localPart.isEmpty && localPart.all emailChar && domainPart.all emailChar &&
      (domainPart.drop 1).dropLast.contains '.'

/-- Reactive billing form of the checkout wizard (raw string values; the
numeric `tipoDocumento` control is an `Int`). -/
structure CheckoutForm where
  medioPago : String
  sinNombre : String
  razonSocial : String
  tipoDocumento : Int
  documentoSIN : String
  complementoSIN : String
  excepcionNIT : String
  correoElectronico : String
  numeroTelefono : String
  deriving Repr, DecidableEq

/-- QR result held by the wizard (`QRData`). -/
structure QRData where
  validity : String
  qrImage : String
  deriving Repr, DecidableEq

/-- Ephemeral state of the checkout wizard component. -/
structure CheckoutState where
  currentStep : Nat
  loading : Bool
  errors : List String
  showExceptionNIT : Bool
  itemsCart : List ItemCarrito
  form : CheckoutForm
  qrData : QRData
  deriving Repr, DecidableEq

/-- `totalSteps` of the checkout wizard. -/
def checkoutTotalSteps : Nat := 5

/-- `toDecimalPlaces(2)` with decimal.js `ROUND_HALF_UP` (ties away from
zero). -/
def round2 (q : ℚ) : ℚ :=
  if 0 ≤ q then (⌊q * 100 + 1 / 2⌋ : ℚ) / 100
  else -((⌊-q * 100 + 1 / 2⌋ : ℚ) / 100)


namespace CheckoutState

/-- `totalServices` computed signal of the checkout wizard. -/
def totalServices (s : CheckoutState) : ℚ :=
  round2 ((s.itemsCart.map ItemCarrito.totalServicio).sum)

/-- `totalCommissions` computed signal of the checkout wizard. -/
def totalCommissions (s : CheckoutState) : ℚ :=
  round2 ((s.itemsCart.map ItemCarrito.totalComision).sum)

/-- `totalGeneral` computed signal of the checkout wizard. -/
def totalGeneral (s : CheckoutState) : ℚ :=
  round2 (s.totalServices + s.totalCommissions)

/-- `hasCommissions` computed signal of the checkout wizard. -/
def hasCommissions (s : CheckoutState) : Bool :=
  decide (0 < s.totalCommissions)

/-- `addError` (checkout-wizard.ts). -/
def addError (s : CheckoutState) (msg : String) : CheckoutState :=
  { s with errors := s.errors ++ [msg] }

/-- `clearErrors` (checkout-wizard.ts). -/
def clearErrors (s : CheckoutState) : CheckoutState :=
  { s with errors := [] }

/-- `handleApiError` (checkout-wizard.ts). -/
def handleApiError (s : CheckoutState) (handledByModal : Bool)
    (fallbackMessage : String) : CheckoutState :=
  if handledByModal then s else s.addError fallbackMessage

/-- `nextStep` (checkout-wizard.ts): clears errors and increments the step,
capped at `totalSteps`. -/
def nextStep (s : CheckoutState) : CheckoutState :=
  let s1 := s.clearErrors
  if s1.currentStep < checkoutTotalSteps then
    { s1 with currentStep := s1.currentStep + 1 }
  else s1

/-- `prevStep` (checkout-wizard.ts): a no-op on step 5 (QR generated),
otherwise clears errors and decrements the step, floored at 1. -/
def prevStep (s : CheckoutState) : CheckoutState :=
  if s.currentStep = 5 then s
  else
    let s1 := s.clearErrors
    if 1 < s1.currentStep then { s1 with currentStep := s1.currentStep - 1 }
    else s1

/-- `validateBillingShipping` (checkout-wizard.ts): email presence and
format; with commissions, business name and document number are required. -/
def validateBillingShipping (s : CheckoutState) : CheckoutState × Bool :=
  if jsTrim s.form.correoElectronico = "" then
    (s.addError "El correo electronico es obligatorio", false)
  else if ¬ emailRegexTest s.form.correoElectronico then
    (s.addError "El correo electronico no tiene un formato valido", false)
  else if s.hasCommissions then
    if jsTrim s.form.razonSocial = "" then
      (s.addError "La Razon Social es obligatoria", false)
    else if jsTrim s.form.documentoSIN = "" then
      (s.addError "El numero de documento es obligatorio", false)
    else (s, true)
  else (s, true)

/-- `validateCurrentStep` (checkout-wizard.ts). -/
def validateCurrentStep (s : CheckoutState) : CheckoutState × Bool :=
  let s1 := s.clearErrors
  match s1.currentStep with
  | 1 =>
    if s1.itemsCart.isEmpty then (s1.addError "El carrito esta vacio", false)
    else (s1, true)
  | 2 =>
    if s1.form.medioPago = "" then
      (s1.addError "Debe seleccionar un metodo de pago", false)
    else (s1, true)
  | 3 => s1.validateBillingShipping
  | 4 => (s1, true)
  | _ => (s1, true)

end CheckoutState

/-- Reserved control NITs bypassing verification (`validateNIT`). -/
def specialNITs : List String := ["99001", "99002", "99003"]

/-- Payload of `NITResponse.data`. -/
structure NITData where
  estadoDocumento : String
  deriving Repr, DecidableEq

/-- `NITResponse` as consulted by `validateNIT`. -/
structure NITResponse where
  success : Bool
  data : Option NITData
  deriving Repr, DecidableEq

namespace CheckoutState

/-- `validateNIT` (checkout-wizard.ts), big-step over the verification
subscription.  The returned boolean records whether the backend
`verifyNIT` call was issued; `verifyResult` is consumed only in that case.
The early-return paths (non-NIT document type, reserved control NIT,
exception already accepted) advance without a call.  On a failed
verification the exception control is revealed and an inline error is
added; the source then re-reads the exception flag, which in this
synchronous model still holds its pre-call value, so that re-check never
fires here (the user re-attempts advancement instead).  The `loading` flag
is set during the call and reset on every path, leaving it unchanged. -/
def validateNIT (s : CheckoutState) (verifyResult : ApiResult NITResponse) :
    CheckoutState × Bool :=
  if s.form.tipoDocumento ≠ 5 then (s.nextStep, false)
  else if s.form.documentoSIN ∈ specialNITs then (s.nextStep, false)
  else if s.form.excepcionNIT = "true" then (s.nextStep, false)
  else
    match verifyResult with
    | .ok response =>
      if response.success ∧ response.data.map NITData.estadoDocumento = some "true" then
        (s.nextStep, true)
      else
        let s1 := { s with showExceptionNIT := true }
        let s2 := s1.addError
          "NIT invalido. Confirme si se realiza Excepcion de registro con ese NIT"
        if s2.form.excepcionNIT = "true" then (s2.nextStep, true) else (s2, true)
    | .err handled => (s.handleApiError handled "Error al validar NIT", true)

/-- `handleNextStep` (checkout-wizard.ts): validate the current step, run the
NIT sub-step when on step 3 with commissions and a NIT document type,
otherwise advance.  The boolean records whether a backend NIT-verification
call was made. -/
def handleNextStep (s : CheckoutState) (verifyResult : ApiResult NITResponse) :
    CheckoutState × Bool :=
  let (s1, valid) := s.validateCurrentStep
  if ¬ valid then (s1, false)
  else if s1.currentStep = 3 ∧ s1.hasCommissions ∧ s1.form.tipoDocumento = 5 then
    s1.validateNIT verifyResult
  else (s1.nextStep, false)

end CheckoutState

/-- Payment request assembled by `processPayment` (checkout-wizard.ts,
`paymentData`). -/
structure PagoRequest where
  medioPago : String
  itemsCarrito : List ItemCarrito
  totalServicios : ℚ
  totalComisiones : ℚ
  totalGeneral : ℚ
  tipoDocumento : Int
  documentoSIN : String
  complementoSIN : String
  excepcionNIT : String
  razonSocial : String
  correoElectronico : String
  numeroTelefono : String
  browserFingerprint : String
  deriving Repr, DecidableEq

/-- `PagoResponse` as consulted by `processPayment`: `data = none` models a
missing/falsy `data` field. -/
structure PagoResponse where
  success : Bool
  data : Option QRData
  deriving Repr, DecidableEq

namespace CheckoutState

/-- Assembly of `paymentData` inside `processPayment`, from cart items,
computed totals, raw form values and the browser fingerprint. -/
def buildPaymentRequest (s : CheckoutState) (browserFingerprint : String) :
    PagoRequest :=
  { medioPago := s.form.medioPago
    itemsCarrito := s.itemsCart
    totalServicios := s.totalServices
    totalComisiones := s.totalCommissions
    totalGeneral := s.totalGeneral
    tipoDocumento := s.form.tipoDocumento
    documentoSIN := s.form.documentoSIN
    complementoSIN := s.form.complementoSIN
    excepcionNIT := if s.form.excepcionNIT = "true" then "1" else "0"
    razonSocial := s.form.razonSocial
    correoElectronico := s.form.correoElectronico
    numeroTelefono := if s.form.numeroTelefono = "" then "0"
      else s.form.numeroTelefono
    browserFingerprint := browserFingerprint }

/-- `processPayment` (checkout-wizard.ts), big-step over the whole pipeline:
re-entrancy guard on `loading`, final validations, then the sequential chain
fingerprint → request assembly → backend call.  `fp` is the string the
fingerprint generation completed with (digest or `""`); `paymentResult` the
backend outcome.  Returns the new wizard state, the new cart-store state and
the request that was sent (`none` when a guard aborted before the call).
On success the QR data is stored, the cart store is cleared and the step is
set to 5; on failure an error is surfaced and nothing else changes.
`finalize` resets `loading` on every completed run. -/
def processPayment (s : CheckoutState) (cartStore : CartState) (fp : String)
    (paymentResult : ApiResult PagoResponse) :
    CheckoutState × CartState × Option PagoRequest :=
  if s.loading then (s, cartStore, none)
  else if jsTrim s.form.correoElectronico = "" then
    (s.addError "Debe ingresar un correo electronico", cartStore, none)
  else if s.form.medioPago ≠ "Q" then
    (s.addError "Metodo de pago no implementado", cartStore, none)
  else
    let request := s.buildPaymentRequest fp
    match paymentResult with
    | .ok response =>
      match response.data, response.success with
      | some qd, true =>
        ({ s with qrData := qd, currentStep := 5, loading := false },
          cartStore.clearCart, some request)
      | _, _ =>
        ({ s.addError "Error al procesar el pago" with loading := false },
          cartStore, some request)
    | .err handled =>
      ({ s.handleApiError handled "Error al procesar el pago. Intente nuevamente."
          with loading := false }, cartStore, some request)

end CheckoutState

/-- Modelled from the spec: the checkout wizard's template
(`checkout-wizard.html`) is not among the repository sources; per the spec's
step gating, forward navigation on steps 1..3 invokes `handleNextStep` while
"advancing from 4 invokes submission directly", i.e. the step-4 button is
wired to `processPayment`.  This dispatcher reproduces that wiring. -/
def advanceAction (s : CheckoutState) (cartStore : CartState)
    (verifyResult : ApiResult NITResponse) (fp : String)
    (paymentResult : ApiResult PagoResponse) :
    CheckoutState × CartState × Option PagoRequest :=
  if s.currentStep = 4 then s.processPayment cartStore fp paymentResult
  else ((s.handleNextStep verifyResult).1, cartStore, none)

/-! ## Confirmation modal service (confirmation-modal.service.ts) -/

/-- Full modal configuration (`ConfirmationModalConfig`); `details` as an
association list. -/
structure ConfirmationModalConfig where
  title : String
  message : String
  details : List (String × String)
  confirmText : String
  cancelText : String
  headerClass : String
  iconClass : String
  confirmButtonClass : String
  cancelButtonClass : String
  borderClass : String
  deriving Repr, DecidableEq

/-- `DEFAULT_CONFIG` of the confirmation modal service. -/
def defaultModalConfig : ConfirmationModalConfig :=
  { title := "Confirmar acción"
    message := "¿Está seguro que desea continuar con esta operación?"
    confirmText := "Continuar"
    cancelText := "Cancelar"
    details := []
    headerClass := "bg-amber-50 dark:bg-amber-900"
    iconClass := "bg-amber-500 text-white"
    confirmButtonClass := "bg-amber-500 hover:bg-amber-600"
    cancelButtonClass :=
      "bg-gray-200 hover:bg-gray-300 text-gray-800 dark:bg-gray-700 dark:hover:bg-gray-600 dark:text-gray-100"
    borderClass := "border-amber-300 dark:border-amber-700" }

/-- Partial configuration (`ConfirmationModalInput`): every field optional. -/
structure ConfirmationModalInput where
  title : Option String := none
  message : Option String := none
  details : Option (List (String × String)) := none
  confirmText : Option String := none
  cancelText : Option String := none
  headerClass : Option String := none
  iconClass : Option String := none
  confirmButtonClass : Option String := none
  cancelButtonClass : Option String := none
  borderClass : Option String := none
  deriving Repr, DecidableEq

/-- Merge of `show`: spread of the defaults, the overrides, and the merged
`details` maps. -/
def mergeModalConfig (input : ConfirmationModalInput) : ConfirmationModalConfig :=
  { title := input.title.getD defaultModalConfig.title
    message := input.message.getD defaultModalConfig.message
    details := defaultModalConfig.details ++ input.details.getD []
    confirmText := input.confirmText.getD defaultModalConfig.confirmText
    cancelText := input.cancelText.getD defaultModalConfig.cancelText
    headerClass := input.headerClass.getD defaultModalConfig.headerClass
    iconClass := input.iconClass.getD defaultModalConfig.iconClass
    confirmButtonClass :=
      input.confirmButtonClass.getD defaultModalConfig.confirmButtonClass
    cancelButtonClass :=
      input.cancelButtonClass.getD defaultModalConfig.cancelButtonClass
    borderClass := input.borderClass.getD defaultModalConfig.borderClass }

/-- State of `ConfirmationModalService`: visibility, displayed configuration,
and the single resolver slot.  A held resolver is identified by the id of the
promise it would settle. -/
structure ModalState where
  isVisible : Bool
  config : ConfirmationModalConfig
  resolveCallback : Option Nat
  deriving Repr, DecidableEq

/-- Initial state of the service. -/
def initModalState : ModalState :=
  { isVisible := false, config := defaultModalConfig, resolveCallback := none }

/-- Externally triggered events of the confirmation modal: a `confirm(config)`
call creating promise `pid`, or a click on one of the two buttons
(`handleConfirm` / `handleCancel`). -/
inductive ModalEvent where
  | confirmCall (pid : Nat) (input : ConfirmationModalInput) : ModalEvent
  | clickConfirm : ModalEvent
  | clickCancel : ModalEvent
  deriving Repr, DecidableEq

/-- One step of the confirmation-modal service.  The optional result is the
promise resolution the step performs: `confirm` stores the new promise's
resolver and shows the merged configuration; a button click hides the modal
and, when a resolver is held, settles exactly that promise (`true` for
confirm, `false` for cancel) and empties the slot. -/
def modalStep (s : ModalState) : ModalEvent → ModalState × Option (Nat × Bool)
  | .confirmCall pid input =>
    ({ isVisible := true, config := mergeModalConfig input,
       resolveCallback := some pid }, none)
  | .clickConfirm =>
    match s.resolveCallback with
    | some pid =>
      ({ s with isVisible := false, resolveCallback := none }, some (pid, true))
    | none => ({ s with isVisible := false }, none)
  | .clickCancel =>
    match s.resolveCallback with
    | some pid =>
      ({ s with isVisible := false, resolveCallback := none }, some (pid, false))
    | none => ({ s with isVisible := false }, none)

/-- Run of the modal service over a list of events, accumulating every
promise resolution in order. -/
def modalRun (s : ModalState) : List ModalEvent → ModalState × List (Nat × Bool)
  | [] => (s, [])
  | e :: es =>
    let (s1, r) := modalStep s e
    let (s2, rs) := modalRun s1 es
    (s2, r.toList ++ rs)

/-! ## Shared test fixtures -/

/-- Concrete billing data used by the concrete witnesses below. -/
def sampleBilling : DatosFacturacion :=
  { tipoDocumento := 1
    complementoDocumento := ""
    numeroDocumento := "1234567"
    nombreRazonsocial := "SOCIO EJEMPLO"
    correoElectronico := "socio@example.com"
    numeroTelefono := "71234567" }

/-- Concrete cart item with a chosen service alias, contract code and
currency abbreviation, used by the concrete witnesses below. -/
def mkItem (aliasServicio codigoContrato abreviacionMoneda : String) : ItemCarrito :=
  { fechaAdicion := 0
    aliasServicio := aliasServicio
    nombreServicio := "SERVICIO"
    abreviacionMoneda := abreviacionMoneda
    descripcionDocOficial := "Código de Deuda"
    codigoDeuda := "12345"
    codigoContrato := codigoContrato
    nombreAsociado := "SOCIO EJEMPLO"
    datosFacturacion := sampleBilling
    totalServicio := 10
    totalComision := 0
    totalGeneral := 10
    deudasSeleccionadas := [] }

/-- Concrete cart-store state whose in-memory cart and persisted blob agree,
with both timestamps 0 and a stored session id, used by the concrete
witnesses below. -/
def mkCartState (sid : String) (items : List ItemCarrito) : CartState :=
  { cart := some { sessionId := sid, items := items, createdAt := 0, updatedAt := 0 }
    storedCart := .stored { sessionId := sid, items := items, createdAt := 0, updatedAt := 0 }
    storedSessionId := some sid }

/-- Legacy persisted item lacking a currency field (modelled as `""`). -/
def legacyItem : ItemCarrito := mkItem "svc" "CT-1" ""

/-- Store state with an unparsable persisted blob. -/
def cartLoadCorrupt : CartState :=
  { cart := none, storedCart := .corrupt, storedSessionId := some "sess-1" }

/-- Store state whose persisted blob carries a stale session id. -/
def cartLoadMismatch : CartState :=
  { cart := none
    storedCart := .stored { sessionId := "stale", items := [legacyItem], createdAt := 0, updatedAt := 0 }
    storedSessionId := some "sess-1" }

/-- Store state whose persisted blob matches the active session id. -/
def cartLoadMatch : CartState :=
  { cart := none
    storedCart := .stored { sessionId := "sess-1", items := [legacyItem], createdAt := 0, updatedAt := 0 }
    storedSessionId := some "sess-1" }

/-- Concrete one-item cart in bolivianos. -/
def cartBs : CartState := mkCartState "sess-1" [mkItem "svc" "CT-1" "Bs."]

/-- Concrete associate data for the wizard witnesses. -/
def sampleAsociado : DatosAsociado :=
  { codigoDeuda := "12345"
    codigoAsociado := "A-1"
    nombreAsociado := "SOCIO EJEMPLO"
    tipoDocumento := 1
    numeroDocumento := "1234567"
    complementoDocumento := ""
    nombreRazonsocial := "SOCIO EJEMPLO"
    correoElectronico := "socio@example.com"
    numeroTelefono := "71234567" }

/-- Concrete contracts for the wizard witnesses. -/
def sampleContrato : Contrato :=
  { codigoContrato := "CT-1", checksumContrato := "chk1", datosAsociado := sampleAsociado }

/-- Second concrete contract. -/
def sampleContrato2 : Contrato :=
  { codigoContrato := "CT-2", checksumContrato := "chk2", datosAsociado := sampleAsociado }

/-- Fresh wizard state on the search step with a non-empty code. -/
def cobranzaStep1 : CobranzaState :=
  { currentStep := 1, loading := false, errors := [], codigoDeuda := "12345",
    contracts := [], selectedContract := none, outstandingDebts := [],
    selectedDebts := [], associateData := none }

/-! ## Checkout fixtures -/

/-- Concrete cart item carrying a commission. -/
def itemCom : ItemCarrito :=
  { mkItem "svc" "CT-1" "Bs." with totalComision := 2, totalGeneral := 12 }

/-- Concrete billing form with a chosen tax-document number and exception
flag. -/
def checkoutFormNIT (documentoSIN excepcionNIT : String) : CheckoutForm :=
  { medioPago := "Q", sinNombre := "NO", razonSocial := "EMPRESA SRL",
    tipoDocumento := 5, documentoSIN := documentoSIN, complementoSIN := "",
    excepcionNIT := excepcionNIT, correoElectronico := "cliente@example.com",
    numeroTelefono := "71234567" }

/-- Concrete checkout state on the billing step with one commission-bearing
item. -/
def checkoutStep3 (documentoSIN excepcionNIT : String) : CheckoutState :=
  { currentStep := 3, loading := false, errors := [], showExceptionNIT := false,
    itemsCart := [itemCom], form := checkoutFormNIT documentoSIN excepcionNIT,
    qrData := { validity := "", qrImage := "" } }

/-- Concrete checkout state on the summary step. -/
def checkoutStep4 : CheckoutState :=
  { checkoutStep3 "99002" "false" with currentStep := 4 }

/-- Concrete checkout state on the terminal QR step. -/
def checkoutStep5 : CheckoutState :=
  { checkoutStep3 "99002" "false" with currentStep := 5 }


/-! ## C1: cascading debt toggle -/

theorem cascadeAux_getElem? (checked : Bool) (index i : Nat) (l : List Bool)
    (j : Nat) :
    (cascadeAux checked index i l)[j]? = l[j]?.map (fun b =>
      if checked then (if i + j ≤ index then true else b)
      else (if index ≤ i + j then false else b)) := by
  induction l generalizing i j with
  | nil => simp [cascadeAux]
  | cons b bs ih =>
    cases j with
    | zero => simp [cascadeAux]
    | succ j =>
      have h : i + 1 + j = i + (j + 1) := by omega
      simp [cascadeAux, ih (i + 1) j, h]

/-- C1: for every debt-flag sequence and every in-range index, `toggleDeuda`
with `checked = true` makes flags 0..index all true and leaves the later
flags as they were; with `checked = false` it makes flags index..end all
false and leaves the earlier flags as they were, regardless of prior state. -/
theorem toggleDeuda_cascade (flags : List Bool) (index : Nat)
    (h : index < flags.length) :
    (∀ i, i ≤ index → (toggleDeuda flags index true)[i]? = some true) ∧
    (∀ i, index < i → (toggleDeuda flags index true)[i]? = flags[i]?) ∧
    (∀ i, index ≤ i → i < flags.length →
      (toggleDeuda flags index false)[i]? = some false) ∧
    (∀ i, i < index → (toggleDeuda flags index false)[i]? = flags[i]?) := by
  refine ⟨fun i hi => ?_, fun i hi => ?_, fun i hi hlen => ?_, fun i hi => ?_⟩
  · have hlen : i < flags.length := lt_of_le_of_lt hi h
    rw [toggleDeuda, cascadeAux_getElem?]
    rw [List.getElem?_eq_getElem hlen]
    simp [hi]
  · rw [toggleDeuda, cascadeAux_getElem?]
    cases hq : flags[i]? with
    | none => simp
    | some b => simp [Nat.not_le.mpr hi]
  · rw [toggleDeuda, cascadeAux_getElem?]
    rw [List.getElem?_eq_getElem hlen]
    simp [hi]
  · rw [toggleDeuda, cascadeAux_getElem?]
    cases hq : flags[i]? with
    | none => simp
    | some b => simp [Nat.not_le.mpr hi]

/-- Witness for C1 at a concrete input: a five-flag list, toggling index 2. -/
theorem toggleDeuda_cascade_witness :
    (2 : Nat) < 5 ∧
    (toggleDeuda [false, true, false, true, false] 2 true)[1]? = some true ∧
    (toggleDeuda [false, true, false, true, false] 2 true)[4]? = some false ∧
    (toggleDeuda [false, true, false, true, false] 2 false)[3]? = some false ∧
    (toggleDeuda [false, true, false, true, false] 2 false)[1]? = some true := by
  have h := toggleDeuda_cascade [false, true, false, true, false] 2 (by decide)
  refine ⟨by decide, h.1 1 (by decide), ?_, h.2.2.1 3 (by decide) (by decide), ?_⟩
  · rw [h.2.1 4 (by decide)]; decide
  · rw [h.2.2.2 1 (by decide)]; decide

/-! ## Helper lemmas about the cart store -/

theorem filterOutIndex_of_out_of_range (index : Int) (i : Nat)
    (l : List ItemCarrito) (h : index < i ∨ (i : Int) + l.length ≤ index) :
    CartState.filterOutIndex index i l = l := by
  induction l generalizing i with
  | nil => simp [CartState.filterOutIndex]
  | cons x xs ih =>
    have hne : (i : Int) ≠ index := by
      rcases h with h | h
      · omega
      · simp only [List.length_cons] at h
        push_cast at h
        omega
    have hrec : index < (i + 1 : Nat) ∨ ((i + 1 : Nat) : Int) + xs.length ≤ index := by
      rcases h with h | h
      · left; push_cast; omega
      · right
        simp only [List.length_cons] at h
        push_cast at h ⊢
        omega
    simp [CartState.filterOutIndex, hne, ih (i + 1) hrec]

theorem mem_of_mem_filterOutIndex (index : Int) (i : Nat) (l : List ItemCarrito)
    (a : ItemCarrito) (h : a ∈ CartState.filterOutIndex index i l) : a ∈ l := by
  induction l generalizing i with
  | nil => simp [CartState.filterOutIndex] at h
  | cons x xs ih =>
    by_cases hne : (i : Int) ≠ index
    · simp only [CartState.filterOutIndex, if_pos hne, List.mem_cons] at h
      rcases h with h | h
      · exact List.mem_cons.mpr (Or.inl h)
      · exact List.mem_cons.mpr (Or.inr (ih (i + 1) h))
    · simp only [CartState.filterOutIndex, if_neg hne] at h
      exact List.mem_cons.mpr (Or.inr (ih (i + 1) h))

theorem currencyConsistent_of_forall (l : List ItemCarrito) (m : String)
    (h : ∀ x ∈ l, x.abreviacionMoneda = m) : currencyConsistent l :=
  fun x hx y hy => (h x hx).trans (h y hy).symm

theorem currencyConsistent_nil : currencyConsistent [] := by
  intro x hx
  simp at hx

/-! ## C10: removeItem with an out-of-range index -/

/-- C10: on a non-empty cart, `removeItem` with an index outside
`0..itemCount-1` (negative or too large) never throws and leaves the items,
the session id and `createdAt` unchanged; only `updatedAt` is rewritten to
the current time and the cart is re-persisted. -/
theorem removeItem_out_of_range_frame (s : CartState) (c : Carrito)
    (index : Int) (now : Nat) (hc : s.cart = some c) (hne : c.items ≠ [])
    (hout : index < 0 ∨ (c.items.length : Int) ≤ index) :
    (s.removeItem index now).cart = some { c with updatedAt := now } ∧
    (s.removeItem index now).storedCart = .stored { c with updatedAt := now } ∧
    (s.removeItem index now).storedSessionId = s.storedSessionId ∧
    (s.removeItem index now).items = c.items := by
  have hfix : CartState.filterOutIndex index 0 c.items = c.items := by
    apply filterOutIndex_of_out_of_range
    rcases hout with h | h
    · left; exact_mod_cast h
    · right; push_cast; omega
  have hres : s.removeItem index now =
      (({ s with cart := some { c with items := c.items, updatedAt := now } } :
        CartState)).saveCart := by
    rw [CartState.removeItem, hc]
    simp [hfix, hne]
  rw [hres]
  refine ⟨rfl, rfl, rfl, ?_⟩
  simp [CartState.saveCart, CartState.items]

/-- Witness for C10: a one-item cart, removal at the too-large index 5. -/
theorem removeItem_out_of_range_frame_witness :
    (mkCartState "sess-1" [mkItem "svc" "CT-1" "Bs."]).removeItem 5 9 ≠
      mkCartState "sess-1" [mkItem "svc" "CT-1" "Bs."] ∧
    ((mkCartState "sess-1" [mkItem "svc" "CT-1" "Bs."]).removeItem 5 9).items =
      [mkItem "svc" "CT-1" "Bs."] := by
  have h := removeItem_out_of_range_frame
    (mkCartState "sess-1" [mkItem "svc" "CT-1" "Bs."])
    { sessionId := "sess-1", items := [mkItem "svc" "CT-1" "Bs."],
      createdAt := 0, updatedAt := 0 } 5 9 rfl (by decide) (by right; decide)
  refine ⟨fun hcontra => ?_, h.2.2.2⟩
  have := h.1
  rw [hcontra] at this
  simp [mkCartState] at this

/-! ## C7: loadCart is fail-safe -/

/-- C7: `loadCart` is fail-safe — an unparsable blob or a session-id mismatch
discards the blob entirely, leaving `items()` empty; a matching blob is
restored with every legacy item migrated to the default currency, so no
restored item has a missing currency field. -/
theorem loadCart_failsafe (s : CartState) :
    (s.storedCart = .corrupt → (s.loadCart).items = []) ∧
    (∀ c, s.storedCart = .stored c → s.validateSession c.sessionId = false →
      (s.loadCart).items = []) ∧
    (∀ c, s.storedCart = .stored c → s.validateSession c.sessionId = true →
      (s.loadCart).items = c.items.map CartState.migrateItem ∧
      ∀ it ∈ (s.loadCart).items, it.abreviacionMoneda ≠ "") := by
  refine ⟨fun hcor => ?_, fun c hst hmis => ?_, fun c hst hok => ?_⟩
  · rw [CartState.loadCart, hcor]
    simp [CartState.clearCart, CartState.items]
  · rw [CartState.loadCart, hst]
    simp only [CartState.validateSession] at hmis ⊢
    simp [hmis, CartState.clearCart, CartState.items]
  · have hmain : (s.loadCart).items = c.items.map CartState.migrateItem := by
      rw [CartState.loadCart, hst]
      simp only [CartState.validateSession] at hok ⊢
      simp [hok, CartState.items]
    refine ⟨hmain, ?_⟩
    rw [hmain]
    intro it hit
    obtain ⟨x, _, rfl⟩ := List.mem_map.mp hit
    rw [CartState.migrateItem]
    split
    · simp
    · next hx => exact hx

/-- Witness for C7 at concrete inputs: a corrupt blob, a stale-session blob,
and a matching blob holding one legacy item. -/
theorem loadCart_failsafe_witness :
    (cartLoadCorrupt.loadCart).items = [] ∧
    (cartLoadMismatch.loadCart).items = [] ∧
    (cartLoadMatch.loadCart).items = [mkItem "svc" "CT-1" "Bs."] := by
  refine ⟨(loadCart_failsafe cartLoadCorrupt).1 rfl,
    (loadCart_failsafe cartLoadMismatch).2.1 _ rfl (by decide), ?_⟩
  have h := ((loadCart_failsafe cartLoadMatch).2.2 _ rfl (by decide)).1
  rw [h]
  decide

/-! ## C3: currency-consistency across cart mutations -/


theorem addItem_items (s : CartState) (item : ItemCarrito) (now : Nat)
    (freshId : String) :
    (s.addItem item now freshId).1.items = s.items ++ [item] := by
  rw [CartState.addItem, CartState.getOrCreateSessionId]
  cases hs : s.storedSessionId <;> cases hc : s.cart <;>
    simp [CartState.saveCart, CartState.items, hc]

/-- Counterexample to C3 as stated: `addItem` itself performs no currency
check, so adding a USD item to a Bs. cart through the store's own method
breaks the one-currency invariant.  (The check lives in the callers, via
`canAddItemWithCurrency`.) -/
theorem cart_addItem_breaks_currency_invariant :
    cartInv cartBs ∧
    ¬ cartInv (cartBs.addItem (mkItem "svc2" "CT-2" "USD") 1 "fresh-9").1 := by
  constructor
  · intro x hx y hy
    simp [cartBs, mkCartState, CartState.items] at hx hy
    rw [hx, hy]
  · intro h
    have h1 : mkItem "svc" "CT-1" "Bs." ∈
        (cartBs.addItem (mkItem "svc2" "CT-2" "USD") 1 "fresh-9").1.items := by
      rw [addItem_items]
      simp [cartBs, mkCartState, CartState.items]
    have h2 : mkItem "svc2" "CT-2" "USD" ∈
        (cartBs.addItem (mkItem "svc2" "CT-2" "USD") 1 "fresh-9").1.items := by
      rw [addItem_items]
      simp
    have := h _ h1 _ h2
    simp [mkItem] at this

/-- C3 as amended: `removeItem` and `clearCart` preserve the one-currency
invariant unconditionally; `addItem` and `replaceItem` preserve it whenever
the inserted item's currency passes `canAddItemWithCurrency` — the check the
callers run before every insertion.  (As stated the claim fails: the
insertion methods themselves accept any argument; see the counterexample.) -/
theorem cart_currency_invariant_preserved (s : CartState) (h : cartInv s) :
    (∀ item now freshId,
      (s.canAddItemWithCurrency item.abreviacionMoneda).1 = true →
      cartInv (s.addItem item now freshId).1) ∧
    (∀ index now, cartInv (s.removeItem index now)) ∧
    (∀ index item now,
      (s.canAddItemWithCurrency item.abreviacionMoneda).1 = true →
      cartInv (s.replaceItem index item now).1) ∧
    cartInv s.clearCart := by
  have hcanEq : ∀ m, (s.canAddItemWithCurrency m).1 = true →
      ∀ x ∈ s.items, x.abreviacionMoneda = m := by
    intro m hcan x hx
    rw [CartState.canAddItemWithCurrency] at hcan
    rcases hi : s.items with _ | ⟨z, zs⟩
    · rw [hi] at hx; simp at hx
    · rw [hi] at hcan
      simp only [decide_eq_true_eq] at hcan
      have hz : z ∈ s.items := by rw [hi]; exact List.mem_cons_self z zs
      exact (h x hx z hz).trans hcan
  refine ⟨fun item now freshId hcan => ?_, fun index now => ?_,
    fun index item now hcan => ?_, ?_⟩
  · rw [cartInv, addItem_items]
    refine currencyConsistent_of_forall _ item.abreviacionMoneda fun y hy => ?_
    rcases List.mem_append.mp hy with hmem | hmem
    · exact hcanEq _ hcan y hmem
    · simp only [List.mem_singleton] at hmem
      rw [hmem]
  · rw [CartState.removeItem]
    rcases hc : s.cart with _ | c
    · exact h
    · simp only
      split
      · intro x hx
        simp [CartState.clearCart, CartState.items] at hx
      · intro y hy z hz
        simp [CartState.saveCart, CartState.items] at hy hz
        have hys : y ∈ s.items := by
          simp only [CartState.items, hc, Option.map, Option.getD]
          exact mem_of_mem_filterOutIndex _ _ _ _ hy
        have hzs : z ∈ s.items := by
          simp only [CartState.items, hc, Option.map, Option.getD]
          exact mem_of_mem_filterOutIndex _ _ _ _ hz
        exact h y hys z hzs
  · rw [CartState.replaceItem]
    rcases hc : s.cart with _ | c
    · exact h
    · simp only
      split
      · exact h
      · refine currencyConsistent_of_forall _ item.abreviacionMoneda fun y hy => ?_
        simp [CartState.saveCart, CartState.items] at hy
        rcases List.mem_or_eq_of_mem_set hy with hmem | hmem
        · refine hcanEq _ hcan y ?_
          simp only [CartState.items, hc, Option.map, Option.getD]
          exact hmem
        · rw [hmem]
  · intro x hx
    simp [CartState.clearCart, CartState.items] at hx

/-- Witness for the amended C3 at a concrete input: the Bs. cart accepts a
matching-currency item and stays consistent, and survives removal. -/
theorem cart_currency_invariant_preserved_witness :
    cartInv cartBs ∧
    (cartBs.canAddItemWithCurrency "Bs.").1 = true ∧
    cartInv (cartBs.addItem (mkItem "svc2" "CT-2" "Bs.") 1 "fresh-9").1 ∧
    cartInv (cartBs.removeItem 0 1) := by
  have hinv : cartInv cartBs := by decide
  have h := cart_currency_invariant_preserved cartBs hinv
  exact ⟨hinv, by decide, h.1 (mkItem "svc2" "CT-2" "Bs.") 1 "fresh-9" (by decide),
    h.2.1 0 1⟩

/-! ## C4: removing the last item -/

/-- Counterexample to C4 as stated: removing the only item clears the cart,
but `clearCart` leaves the `redis_session_id` key intact, so the next
`addItem` reuses the previously stored session id ("sess-1") instead of the
freshly generated one ("fresh-9"). -/
theorem removeLastItem_sessionId_not_fresh :
    ((cartBs.removeItem 0 1).addItem (mkItem "svc" "CT-1" "Bs.") 2 "fresh-9").1.cart =
      some { sessionId := "sess-1", items := [mkItem "svc" "CT-1" "Bs."],
             createdAt := 2, updatedAt := 2 } ∧
    "sess-1" ≠ "fresh-9" := by
  constructor
  · rfl
  · decide

/-- C4 as amended: for a cart holding exactly one item, `removeItem 0` clears
the entire cart — `items()` becomes empty and the persisted blob is removed —
but the session-id key survives, so a subsequent `addItem` builds the new
cart under the previously stored session id (when one is stored), not under
a fresh one. -/
theorem removeLastItem_clears_cart_keeps_session (s : CartState) (c : Carrito)
    (x : ItemCarrito) (now : Nat) (hc : s.cart = some c) (hx : c.items = [x]) :
    s.removeItem 0 now = s.clearCart ∧
    (s.removeItem 0 now).items = [] ∧
    (s.removeItem 0 now).storedCart = .absent ∧
    (s.removeItem 0 now).storedSessionId = s.storedSessionId ∧
    (∀ sid item now2 freshId, s.storedSessionId = some sid →
      ((s.removeItem 0 now).addItem item now2 freshId).1.cart =
        some { sessionId := sid, items := [item], createdAt := now2,
               updatedAt := now2 }) := by
  have hrm : s.removeItem 0 now = s.clearCart := by
    simp [CartState.removeItem, hc, hx, CartState.filterOutIndex]
  refine ⟨hrm, ?_, ?_, ?_, ?_⟩
  · rw [hrm]; simp [CartState.clearCart, CartState.items]
  · rw [hrm]; rfl
  · rw [hrm]; rfl
  · intro sid item now2 freshId hsid
    rw [hrm]
    rw [CartState.addItem, CartState.getOrCreateSessionId]
    simp [CartState.clearCart, CartState.saveCart, hsid]

/-- Witness for the amended C4 at a concrete input: the one-item Bs. cart. -/
theorem removeLastItem_clears_cart_keeps_session_witness :
    (cartBs.removeItem 0 1).items = [] ∧
    (cartBs.removeItem 0 1).storedSessionId = some "sess-1" ∧
    ((cartBs.removeItem 0 1).addItem (mkItem "svc2" "CT-2" "Bs.") 2 "fresh-9").1.cart =
      some { sessionId := "sess-1", items := [mkItem "svc2" "CT-2" "Bs."],
             createdAt := 2, updatedAt := 2 } := by
  have h := removeLastItem_clears_cart_keeps_session cartBs
    { sessionId := "sess-1", items := [mkItem "svc" "CT-1" "Bs."],
      createdAt := 0, updatedAt := 0 }
    (mkItem "svc" "CT-1" "Bs.") 1 rfl rfl
  exact ⟨h.2.1, h.2.2.2.1.trans rfl,
    h.2.2.2.2 "sess-1" (mkItem "svc2" "CT-2" "Bs.") 2 "fresh-9" rfl⟩

/-! ## C8: three-way case split of the contract search -/


/-- C8: the search transition splits three ways on the returned contracts —
zero (or a failed response) stays on step 1 with exactly the error
"No se encontraron contratos" and no step assignment at all; exactly one
contract is auto-selected and the debts query lands the wizard in step 3,
with step 2 never assigned during the run; two or more contracts land in
step 2. -/
theorem consultContracts_three_way (s : CobranzaState) (h1 : s.currentStep = 1)
    (hl : s.loading = false) (hcode : jsTrim s.codigoDeuda ≠ "")
    (cresp : ContratosResponse) (dres : ApiResult DeudasResponse) :
    (cresp.success = false ∨ cresp.contratosAsociado = none ∨
        cresp.contratosAsociado = some [] →
      (s.consultContracts (.ok cresp) dres).1.currentStep = 1 ∧
      (s.consultContracts (.ok cresp) dres).1.errors =
        ["No se encontraron contratos"] ∧
      (s.consultContracts (.ok cresp) dres).2 = []) ∧
    (∀ c r, cresp.success = true → cresp.contratosAsociado = some [c] →
        dres = .ok r →
      (s.consultContracts (.ok cresp) dres).1.currentStep = 3 ∧
      (s.consultContracts (.ok cresp) dres).1.selectedContract = some c ∧
      (s.consultContracts (.ok cresp) dres).2 = [3] ∧
      2 ∉ (s.consultContracts (.ok cresp) dres).2) ∧
    (∀ c1 c2 cs, cresp.success = true →
        cresp.contratosAsociado = some (c1 :: c2 :: cs) →
      (s.consultContracts (.ok cresp) dres).1.currentStep = 2 ∧
      (s.consultContracts (.ok cresp) dres).2 = [2]) := by
  obtain ⟨succ, ca⟩ := cresp
  refine ⟨fun hz => ?_, fun c r hs hca hd => ?_, fun c1 c2 cs hs hca => ?_⟩
  · rw [CobranzaState.consultContracts]
    rcases ca with _ | l
    · rcases succ <;>
        simp [hl, hcode, h1, CobranzaState.clearErrors, CobranzaState.addError]
    · rcases l with _ | ⟨c, cs⟩
      · rcases succ <;>
          simp [hl, hcode, h1, CobranzaState.clearErrors, CobranzaState.addError]
      · have hsucc : succ = false := by
          rcases hz with hz | hz | hz
          · exact hz
          · exact absurd hz (by simp)
          · exact absurd hz (by simp)
        subst hsucc
        simp [hl, hcode, h1, CobranzaState.clearErrors, CobranzaState.addError]
  · have hs' : succ = true := hs
    have hca' : ca = some [c] := hca
    subst hs'; subst hca'; subst hd
    rw [CobranzaState.consultContracts]
    obtain ⟨rs, rp⟩ := r
    rcases rp with _ | l <;> rcases rs with _ | _ <;>
      simp [hl, hcode, CobranzaState.clearErrors, CobranzaState.consultDebtsTap]
  · have hs' : succ = true := hs
    have hca' : ca = some (c1 :: c2 :: cs) := hca
    subst hs'; subst hca'
    rw [CobranzaState.consultContracts]
    simp [hl, hcode, CobranzaState.clearErrors]

/-- Witness for C8 at concrete inputs: an empty, a singleton and a two-element
contract list against the fresh search-step state. -/
theorem consultContracts_three_way_witness :
    (cobranzaStep1.consultContracts (.ok ⟨true, some []⟩)
      (.ok ⟨true, some []⟩)).1.currentStep = 1 ∧
    (cobranzaStep1.consultContracts (.ok ⟨true, some [sampleContrato]⟩)
      (.ok ⟨true, some []⟩)).1.currentStep = 3 ∧
    (cobranzaStep1.consultContracts (.ok ⟨true, some [sampleContrato]⟩)
      (.ok ⟨true, some []⟩)).1.selectedContract = some sampleContrato ∧
    2 ∉ (cobranzaStep1.consultContracts (.ok ⟨true, some [sampleContrato]⟩)
      (.ok ⟨true, some []⟩)).2 ∧
    (cobranzaStep1.consultContracts
      (.ok ⟨true, some [sampleContrato, sampleContrato2]⟩)
      (.ok ⟨true, some []⟩)).1.currentStep = 2 := by
  have hz := (consultContracts_three_way cobranzaStep1 rfl rfl (by decide)
    ⟨true, some []⟩ (.ok ⟨true, some []⟩)).1 (by simp)
  have h1 := (consultContracts_three_way cobranzaStep1 rfl rfl (by decide)
    ⟨true, some [sampleContrato]⟩ (.ok ⟨true, some []⟩)).2.1 sampleContrato
    ⟨true, some []⟩ rfl rfl rfl
  have h2 := (consultContracts_three_way cobranzaStep1 rfl rfl (by decide)
    ⟨true, some [sampleContrato, sampleContrato2]⟩ (.ok ⟨true, some []⟩)).2.2
    sampleContrato sampleContrato2 [] rfl rfl
  exact ⟨hz.1, h1.1, h1.2.1, h1.2.2.2, h2.1⟩

/-! ## Helper lemmas about the checkout wizard -/

theorem validateBillingShipping_of_valid (s : CheckoutState)
    (h : (s.validateBillingShipping).2 = true) :
    s.validateBillingShipping = (s, true) := by
  rw [CheckoutState.validateBillingShipping] at h ⊢
  split_ifs at h ⊢ <;> simp_all

theorem validateBillingShipping_fst_step (s : CheckoutState) :
    ((s.validateBillingShipping).1).currentStep = s.currentStep := by
  obtain ⟨cs, l, e, se, ic, f, qd⟩ := s
  rw [CheckoutState.validateBillingShipping]
  split_ifs <;> rfl

theorem validateCurrentStep_fst_step (s : CheckoutState) :
    ((s.validateCurrentStep).1).currentStep = s.currentStep := by
  obtain ⟨cs, l, e, se, ic, f, qd⟩ := s
  rw [CheckoutState.validateCurrentStep]
  split
  · split_ifs <;> rfl
  · split_ifs <;> rfl
  · exact validateBillingShipping_fst_step _
  · rfl
  · rfl

theorem nextStep_le (s : CheckoutState) (h : s.currentStep ≤ 3) :
    (s.nextStep).currentStep ≤ 4 := by
  obtain ⟨cs, l, e, se, ic, f, qd⟩ := s
  have hcs : cs ≤ 3 := h
  rw [CheckoutState.nextStep]
  split
  · show cs + 1 ≤ 4
    omega
  · show cs ≤ 4
    omega

theorem validateNIT_step_le (s : CheckoutState) (resp : ApiResult NITResponse)
    (h : s.currentStep ≤ 3) : ((s.validateNIT resp).1).currentStep ≤ 4 := by
  rw [CheckoutState.validateNIT.eq_def]
  split_ifs with h1 h2 h3
  · exact nextStep_le s h
  · exact nextStep_le s h
  · exact nextStep_le s h
  · rcases resp with r | handled
    · simp only
      split
      · exact nextStep_le s h
      · split
        · exact nextStep_le _ h
        · show s.currentStep ≤ 4
          omega
    · simp only [CheckoutState.handleApiError]
      split
      · show s.currentStep ≤ 4
        omega
      · show s.currentStep ≤ 4
        omega

theorem handleNextStep_step_le (s : CheckoutState) (resp : ApiResult NITResponse)
    (h : s.currentStep ≤ 3) : ((s.handleNextStep resp).1).currentStep ≤ 4 := by
  rw [CheckoutState.handleNextStep]
  rcases hvc : s.validateCurrentStep with ⟨s1, valid⟩
  have hs1 : s1.currentStep = s.currentStep := by
    have hstep := validateCurrentStep_fst_step s
    rw [hvc] at hstep
    exact hstep
  rcases valid with _ | _
  · simp only [Bool.false_eq_true, not_false_iff, if_true]
    omega
  · simp only [not_true, if_false]
    split
    · exact validateNIT_step_le s1 resp (by omega)
    · have := nextStep_le s1 (by omega)
      exact this

/-! ## C2: step 5 is absorbing and reached only through a successful payment -/

/-- C2: forward navigation from steps 1..3 can never produce step 5; at
step 4 the advance action is payment submission, and the resulting step is 5
exactly when the backend returned a successful payment response carrying QR
data (and whenever step 5 comes out, the response was successful, guards or
not); `prevStep` on step 5 leaves the state unchanged.  The step-4 wiring of
the advance button is modelled from the spec (see `advanceAction`). -/
theorem checkout_step5_absorbing (s : CheckoutState) (cart : CartState)
    (vresp : ApiResult NITResponse) (fp : String)
    (presp : ApiResult PagoResponse) :
    (s.currentStep ≤ 3 →
      (advanceAction s cart vresp fp presp).1.currentStep ≤ 4) ∧
    (s.currentStep = 4 →
      advanceAction s cart vresp fp presp = s.processPayment cart fp presp ∧
      ((s.processPayment cart fp presp).1.currentStep = 5 →
        ∃ r qd, presp = .ok r ∧ r.success = true ∧ r.data = some qd) ∧
      (s.loading = false → jsTrim s.form.correoElectronico ≠ "" →
        s.form.medioPago = "Q" →
        ((s.processPayment cart fp presp).1.currentStep = 5 ↔
          ∃ r qd, presp = .ok r ∧ r.success = true ∧ r.data = some qd))) ∧
    (s.currentStep = 5 → s.prevStep = s) := by
  refine ⟨fun h3 => ?_, fun h4 => ?_, fun h5 => ?_⟩
  · rw [advanceAction, if_neg (by omega)]
    exact handleNextStep_step_le s vresp h3
  · have hdispatch : advanceAction s cart vresp fp presp =
        s.processPayment cart fp presp := by
      rw [advanceAction, if_pos h4]
    have himp : (s.processPayment cart fp presp).1.currentStep = 5 →
        ∃ r qd, presp = .ok r ∧ r.success = true ∧ r.data = some qd := by
      intro hreach
      rw [CheckoutState.processPayment.eq_def] at hreach
      split_ifs at hreach with hg1 hg2 hg3
      · rw [h4] at hreach; exact absurd hreach (by omega)
      · have : (s.addError "Debe ingresar un correo electronico").currentStep = 5 :=
          hreach
        rw [CheckoutState.addError] at this
        rw [show ({ s with errors := s.errors ++
          ["Debe ingresar un correo electronico"] } : CheckoutState).currentStep =
          s.currentStep from rfl, h4] at this
        exact absurd this (by omega)
      · have : (s.addError "Metodo de pago no implementado").currentStep = 5 :=
          hreach
        rw [CheckoutState.addError] at this
        rw [show ({ s with errors := s.errors ++
          ["Metodo de pago no implementado"] } : CheckoutState).currentStep =
          s.currentStep from rfl, h4] at this
        exact absurd this (by omega)
      · rcases presp with r | handled
        · simp only at hreach
          rcases hd : r.data with _ | qd <;> rcases hs : r.success with _ | _ <;>
            rw [hd, hs] at hreach
          · simp only [CheckoutState.addError] at hreach
            rw [show s.currentStep = 4 from h4] at hreach
            exact absurd hreach (by omega)
          · simp only [CheckoutState.addError] at hreach
            rw [show s.currentStep = 4 from h4] at hreach
            exact absurd hreach (by omega)
          · simp only [CheckoutState.addError] at hreach
            rw [show s.currentStep = 4 from h4] at hreach
            exact absurd hreach (by omega)
          · exact ⟨r, qd, rfl, hs, hd⟩
        · simp only [CheckoutState.handleApiError] at hreach
          split_ifs at hreach
          · rw [show s.currentStep = 4 from h4] at hreach
            exact absurd hreach (by omega)
          · simp only [CheckoutState.addError] at hreach
            rw [show s.currentStep = 4 from h4] at hreach
            exact absurd hreach (by omega)
    refine ⟨hdispatch, himp, fun hl hmail hq => ⟨himp, ?_⟩⟩
    rintro ⟨r, qd, rfl, hs, hd⟩
    rw [CheckoutState.processPayment.eq_def]
    rw [if_neg (by rw [hl]; simp), if_neg hmail, if_neg (by rw [hq]; simp)]
    simp only [hd, hs]
  · rw [CheckoutState.prevStep, if_pos h5]


/-- Rounding to two decimal places fixes every natural number. -/
theorem round2_natCast (n : ℕ) : round2 (n : ℚ) = n := by
  rw [round2, if_pos (by positivity)]
  have h1 : ((n : ℚ) * 100 + 1 / 2) = ((n * 100 : ℤ) : ℚ) + 1 / 2 := by
    push_cast
    ring
  have h2 : ⌊(1 / 2 : ℚ)⌋ = 0 := by
    rw [Int.floor_eq_zero_iff]
    constructor <;> norm_num
  rw [h1, Int.floor_int_add, h2]
  push_cast
  ring

theorem totalCommissions_checkoutStep3 (d e : String) :
    (checkoutStep3 d e).totalCommissions = 2 := by
  rw [CheckoutState.totalCommissions]
  have h1 : ((checkoutStep3 d e).itemsCart.map ItemCarrito.totalComision).sum
      = (2 : ℚ) := by
    simp [checkoutStep3, itemCom, mkItem]
  rw [h1, show (2 : ℚ) = ((2 : ℕ) : ℚ) by norm_cast, round2_natCast]

theorem hasCommissions_checkoutStep3 (d e : String) :
    (checkoutStep3 d e).hasCommissions = true := by
  rw [CheckoutState.hasCommissions, totalCommissions_checkoutStep3]
  decide

theorem validateCurrentStep_checkoutStep3 (d : String) (hd : jsTrim d ≠ "")
    (e : String) : ((checkoutStep3 d e).validateCurrentStep).2 = true := by
  have h1 : (checkoutStep3 d e).validateCurrentStep =
      ((checkoutStep3 d e).clearErrors).validateBillingShipping := rfl
  rw [h1, CheckoutState.validateBillingShipping]
  rw [if_neg (show ¬ (jsTrim
        (checkoutStep3 d e).clearErrors.form.correoElectronico = "") from
        (by decide : ¬ (jsTrim "cliente@example.com" = ""))),
    if_neg (show ¬¬ (emailRegexTest
        (checkoutStep3 d e).clearErrors.form.correoElectronico = true) from
        (by decide : ¬¬ (emailRegexTest "cliente@example.com" = true))),
    if_pos (show (checkoutStep3 d e).clearErrors.hasCommissions = true from
      hasCommissions_checkoutStep3 d e),
    if_neg (show ¬ (jsTrim
        (checkoutStep3 d e).clearErrors.form.razonSocial = "") from
        (by decide : ¬ (jsTrim "EMPRESA SRL" = ""))),
    if_neg (show ¬ (jsTrim
        (checkoutStep3 d e).clearErrors.form.documentoSIN = "") from hd)]

/-! ## C5: NIT verification gate on the billing step -/

/-- C5: at step 3 with commissions and the NIT document type (and a passing
step validation), advancement issues the backend NIT-verification call
exactly when the document number is outside the reserved allow-list
\x7b99001, 99002, 99003\x7d and the exception flag is not yet accepted; when
the number is reserved or the exception is accepted, advancement proceeds to
step 4 with no call; on a failed verification the wizard stays on step 3,
reveals the exception control and surfaces the NIT error, leaving the form
and cart untouched — so a subsequent advancement with the exception accepted
falls under the no-call bypass despite the earlier failure. -/
theorem nit_verification_gate (s : CheckoutState) (h3 : s.currentStep = 3)
    (hcom : s.hasCommissions = true) (hdoc : s.form.tipoDocumento = 5)
    (hvalid : (s.validateCurrentStep).2 = true) :
    (∀ resp, (s.handleNextStep resp).2 = true ↔
      (s.form.documentoSIN ∉ specialNITs ∧ s.form.excepcionNIT ≠ "true")) ∧
    (s.form.documentoSIN ∈ specialNITs ∨ s.form.excepcionNIT = "true" →
      ∀ resp, (s.handleNextStep resp).1.currentStep = 4 ∧
        (s.handleNextStep resp).2 = false) ∧
    (∀ r : NITResponse, s.form.documentoSIN ∉ specialNITs →
      s.form.excepcionNIT ≠ "true" →
      ¬ (r.success = true ∧ r.data.map NITData.estadoDocumento = some "true") →
      (s.handleNextStep (.ok r)).1.currentStep = 3 ∧
      (s.handleNextStep (.ok r)).1.showExceptionNIT = true ∧
      (s.handleNextStep (.ok r)).1.errors =
        ["NIT invalido. Confirme si se realiza Excepcion de registro con ese NIT"] ∧
      (s.handleNextStep (.ok r)).1.form = s.form ∧
      (s.handleNextStep (.ok r)).1.itemsCart = s.itemsCart) := by
  obtain ⟨cs, l, e, se, ic, f, qd⟩ := s
  have hcs : cs = 3 := h3
  subst hcs
  have hdoc2 : f.tipoDocumento = 5 := hdoc
  have hcom2 : (⟨3, l, [], se, ic, f, qd⟩ : CheckoutState).hasCommissions = true :=
    hcom
  have hvr : (⟨3, l, e, se, ic, f, qd⟩ : CheckoutState).validateCurrentStep =
      (⟨3, l, [], se, ic, f, qd⟩ : CheckoutState).validateBillingShipping := rfl
  rw [hvr] at hvalid
  have hbs := validateBillingShipping_of_valid _ hvalid
  have hnx : ∀ resp, (⟨3, l, e, se, ic, f, qd⟩ : CheckoutState).handleNextStep resp =
      (⟨3, l, [], se, ic, f, qd⟩ : CheckoutState).validateNIT resp := by
    intro resp
    simp only [CheckoutState.handleNextStep, hvr, hbs]
    simp [hcom2, hdoc2]
  have hns : (⟨3, l, [], se, ic, f, qd⟩ : CheckoutState).nextStep =
      (⟨4, l, [], se, ic, f, qd⟩ : CheckoutState) := rfl
  refine ⟨fun resp => ?_, fun hby resp => ?_, fun r hsp hexc hfail => ?_⟩
  · rw [hnx resp, CheckoutState.validateNIT.eq_def]
    rw [if_neg (show ¬ ((⟨3, l, [], se, ic, f, qd⟩ :
      CheckoutState).form.tipoDocumento ≠ 5) by simp [hdoc2])]
    by_cases hsp : f.documentoSIN ∈ specialNITs
    · rw [if_pos hsp]
      simp [hsp]
    · rw [if_neg hsp]
      by_cases hexc : f.excepcionNIT = "true"
      · rw [if_pos hexc]
        simp [hexc]
      · rw [if_neg hexc]
        rcases resp with r | handled
        · simp only
          split
          · simp [hsp, hexc]
          · split <;> simp [hsp, hexc]
        · simp [hsp, hexc]
  · rw [hnx resp, CheckoutState.validateNIT.eq_def]
    rw [if_neg (show ¬ ((⟨3, l, [], se, ic, f, qd⟩ :
      CheckoutState).form.tipoDocumento ≠ 5) by simp [hdoc2])]
    rcases hby with hby | hby
    · rw [if_pos hby, hns]
      exact ⟨rfl, rfl⟩
    · by_cases hsp : f.documentoSIN ∈ specialNITs
      · rw [if_pos hsp, hns]
        exact ⟨rfl, rfl⟩
      · rw [if_neg hsp, if_pos hby, hns]
        exact ⟨rfl, rfl⟩
  · have hsp2 : f.documentoSIN ∉ specialNITs := hsp
    have hexc2 : f.excepcionNIT ≠ "true" := hexc
    rw [hnx (.ok r)]
    simp only [Option.map_eq_some'] at hfail
    simp only [CheckoutState.validateNIT.eq_def]
    simp [hdoc2, hsp2, hexc2, hfail, CheckoutState.addError]

/-- Witness for C5 at concrete inputs: a reserved NIT bypasses verification,
an ordinary NIT triggers the call and a failed verification keeps the user on
step 3 with the exception control revealed; with the exception accepted the
same advancement proceeds with no call. -/
theorem nit_verification_gate_witness :
    ((checkoutStep3 "99002" "false").handleNextStep (.err false)).1.currentStep = 4 ∧
    ((checkoutStep3 "99002" "false").handleNextStep (.err false)).2 = false ∧
    ((checkoutStep3 "12345678" "false").handleNextStep
      (.ok ⟨true, some ⟨"false"⟩⟩)).2 = true ∧
    ((checkoutStep3 "12345678" "false").handleNextStep
      (.ok ⟨true, some ⟨"false"⟩⟩)).1.currentStep = 3 ∧
    ((checkoutStep3 "12345678" "false").handleNextStep
      (.ok ⟨true, some ⟨"false"⟩⟩)).1.showExceptionNIT = true ∧
    ((checkoutStep3 "12345678" "true").handleNextStep (.err false)).1.currentStep = 4 ∧
    ((checkoutStep3 "12345678" "true").handleNextStep (.err false)).2 = false := by
  have hA := nit_verification_gate (checkoutStep3 "99002" "false") rfl
    (hasCommissions_checkoutStep3 _ _) rfl
    (validateCurrentStep_checkoutStep3 _ (by decide) _)
  have hB := nit_verification_gate (checkoutStep3 "12345678" "false") rfl
    (hasCommissions_checkoutStep3 _ _) rfl
    (validateCurrentStep_checkoutStep3 _ (by decide) _)
  have hC := nit_verification_gate (checkoutStep3 "12345678" "true") rfl
    (hasCommissions_checkoutStep3 _ _) rfl
    (validateCurrentStep_checkoutStep3 _ (by decide) _)
  refine ⟨(hA.2.1 (Or.inl (by decide)) (.err false)).1,
    (hA.2.1 (Or.inl (by decide)) (.err false)).2,
    (hB.1 (.ok ⟨true, some ⟨"false"⟩⟩)).mpr ⟨by decide, by decide⟩,
    (hB.2.2 ⟨true, some ⟨"false"⟩⟩ (by decide) (by decide) (by decide)).1,
    (hB.2.2 ⟨true, some ⟨"false"⟩⟩ (by decide) (by decide) (by decide)).2.1,
    (hC.2.1 (Or.inr rfl) (.err false)).1,
    (hC.2.1 (Or.inr rfl) (.err false)).2⟩

/-- Witness for C2 at concrete inputs: a successful payment moves the step-4
state to step 5, a failed one does not, and `prevStep` on a step-5 state is
the identity. -/
theorem checkout_step5_absorbing_witness :
    (advanceAction checkoutStep4 cartBs (.err false) "fp123"
      (.ok ⟨true, some ⟨"30 minutos", "qr64"⟩⟩)).1.currentStep = 5 ∧
    (checkoutStep4.processPayment cartBs "fp123"
      (.ok ⟨false, none⟩)).1.currentStep ≠ 5 ∧
    checkoutStep5.prevStep = checkoutStep5 := by
  have hA := checkout_step5_absorbing checkoutStep4 cartBs (.err false) "fp123"
    (.ok ⟨true, some ⟨"30 minutos", "qr64"⟩⟩)
  have hB := checkout_step5_absorbing checkoutStep4 cartBs (.err false) "fp123"
    (.ok ⟨false, none⟩)
  have hC := checkout_step5_absorbing checkoutStep5 cartBs (.err false) "fp123"
    (.ok ⟨false, none⟩)
  refine ⟨?_, ?_, hC.2.2 rfl⟩
  · rw [(hA.2.1 rfl).1]
    exact ((hA.2.1 rfl).2.2 rfl (by decide) rfl).mpr
      ⟨⟨true, some ⟨"30 minutos", "qr64"⟩⟩, ⟨"30 minutos", "qr64"⟩, rfl, rfl, rfl⟩
  · intro habs
    obtain ⟨r, qd, heq, hsucc, hdata⟩ := (hB.2.1 rfl).2.1 habs
    cases heq
    simp at hsucc

/-! ## C6: the payment submission pipeline -/

/-- C6: the submission pipeline is sequential and atomic on failure — the
fingerprint step always completes with the cached digest, the fresh digest or
the empty string; the payment request is assembled, after that string is
available, from the cart items, the computed totals and the raw form values
(and carries the fingerprint verbatim); on a successful response the QR data
is stored, the cart store is cleared and the wizard lands on step 5; on a
failed response or a transport error an error is surfaced while the step, the
QR data, the local items and the cart store all stay as they were. -/
theorem processPayment_pipeline (s : CheckoutState) (cart : CartState)
    (hl : s.loading = false) (hmail : jsTrim s.form.correoElectronico ≠ "")
    (hq : s.form.medioPago = "Q") (h4 : s.currentStep = 4) :
    (∀ cache now digest, fingerprintGenerate cache now digest =
      (getCachedFp cache now).getD (digest.getD "")) ∧
    (∀ fp presp, (s.processPayment cart fp presp).2.2 =
        some (s.buildPaymentRequest fp) ∧
      (s.buildPaymentRequest fp).browserFingerprint = fp ∧
      (s.buildPaymentRequest fp).itemsCarrito = s.itemsCart ∧
      (s.buildPaymentRequest fp).totalServicios = s.totalServices ∧
      (s.buildPaymentRequest fp).totalComisiones = s.totalCommissions ∧
      (s.buildPaymentRequest fp).totalGeneral = s.totalGeneral) ∧
    (∀ fp (r : PagoResponse) qd, r.success = true → r.data = some qd →
      (s.processPayment cart fp (.ok r)).1.qrData = qd ∧
      (s.processPayment cart fp (.ok r)).1.currentStep = 5 ∧
      (s.processPayment cart fp (.ok r)).2.1 = cart.clearCart ∧
      ((s.processPayment cart fp (.ok r)).2.1).items = []) ∧
    (∀ fp (r : PagoResponse), r.success = false ∨ r.data = none →
      (s.processPayment cart fp (.ok r)).1.currentStep = 4 ∧
      (s.processPayment cart fp (.ok r)).1.qrData = s.qrData ∧
      (s.processPayment cart fp (.ok r)).1.itemsCart = s.itemsCart ∧
      (s.processPayment cart fp (.ok r)).2.1 = cart ∧
      (s.processPayment cart fp (.ok r)).1.errors =
        s.errors ++ ["Error al procesar el pago"]) ∧
    (∀ fp handled,
      (s.processPayment cart fp (.err handled)).1.currentStep = 4 ∧
      (s.processPayment cart fp (.err handled)).1.qrData = s.qrData ∧
      (s.processPayment cart fp (.err handled)).2.1 = cart) := by
  have hguards : ∀ fp presp, s.processPayment cart fp presp =
      (match presp with
       | .ok response =>
         match response.data, response.success with
         | some qd, true =>
           ({ s with qrData := qd, currentStep := 5, loading := false },
             cart.clearCart, some (s.buildPaymentRequest fp))
         | _, _ =>
           ({ s.addError "Error al procesar el pago" with loading := false },
             cart, some (s.buildPaymentRequest fp))
       | .err handled =>
         ({ s.handleApiError handled
             "Error al procesar el pago. Intente nuevamente."
             with loading := false }, cart, some (s.buildPaymentRequest fp))) := by
    intro fp presp
    rw [CheckoutState.processPayment.eq_def]
    rw [if_neg (by rw [hl]; simp), if_neg hmail, if_neg (by rw [hq]; simp)]
  refine ⟨fun cache now digest => ?_, fun fp presp => ?_,
    fun fp r qd hs hd => ?_, fun fp r hfail => ?_, fun fp handled => ?_⟩
  · rw [fingerprintGenerate.eq_def]
    cases h : getCachedFp cache now <;> rfl
  · rw [hguards]
    rcases presp with r | handled
    · obtain ⟨rs, rd⟩ := r
      rcases rd with _ | qd <;> rcases rs with _ | _ <;>
        exact ⟨rfl, rfl, rfl, rfl, rfl, rfl⟩
    · exact ⟨rfl, rfl, rfl, rfl, rfl, rfl⟩
  · rw [hguards]
    obtain ⟨rs, rd⟩ := r
    have hs' : rs = true := hs
    have hd' : rd = some qd := hd
    subst hs'; subst hd'
    exact ⟨rfl, rfl, rfl, by simp [CartState.clearCart, CartState.items]⟩
  · rw [hguards]
    obtain ⟨rs, rd⟩ := r
    rcases hfail with hf | hf
    · have hf' : rs = false := hf
      subst hf'
      rcases rd with _ | qd <;> exact ⟨h4, rfl, rfl, rfl, rfl⟩
    · have hf' : rd = none := hf
      subst hf'
      rcases rs with _ | _ <;> exact ⟨h4, rfl, rfl, rfl, rfl⟩
  · rw [hguards]
    rcases handled with _ | _
    · exact ⟨h4, rfl, rfl⟩
    · exact ⟨h4, rfl, rfl⟩

/-- Witness for C6 at concrete inputs: the step-4 state with a successful and
with a failed payment response, plus the degraded fingerprint case. -/
theorem processPayment_pipeline_witness :
    (checkoutStep4.processPayment cartBs "fp123"
      (.ok ⟨true, some ⟨"30 minutos", "qr64"⟩⟩)).1.currentStep = 5 ∧
    (checkoutStep4.processPayment cartBs "fp123"
      (.ok ⟨true, some ⟨"30 minutos", "qr64"⟩⟩)).2.2 =
      some (checkoutStep4.buildPaymentRequest "fp123") ∧
    ((checkoutStep4.processPayment cartBs "fp123"
      (.ok ⟨true, some ⟨"30 minutos", "qr64"⟩⟩)).2.1).items = [] ∧
    (checkoutStep4.processPayment cartBs "fp123"
      (.ok ⟨false, none⟩)).1.currentStep = 4 ∧
    (checkoutStep4.processPayment cartBs "fp123" (.ok ⟨false, none⟩)).2.1 =
      cartBs ∧
    fingerprintGenerate none 0 none = "" := by
  have h := processPayment_pipeline checkoutStep4 cartBs rfl (by decide) rfl rfl
  refine ⟨(h.2.2.1 "fp123" ⟨true, some ⟨"30 minutos", "qr64"⟩⟩
      ⟨"30 minutos", "qr64"⟩ rfl rfl).2.1,
    (h.2.1 "fp123" (.ok ⟨true, some ⟨"30 minutos", "qr64"⟩⟩)).1,
    (h.2.2.1 "fp123" ⟨true, some ⟨"30 minutos", "qr64"⟩⟩
      ⟨"30 minutos", "qr64"⟩ rfl rfl).2.2.2,
    (h.2.2.2.1 "fp123" ⟨false, none⟩ (Or.inl rfl)).1,
    (h.2.2.2.1 "fp123" ⟨false, none⟩ (Or.inl rfl)).2.2.2.1,
    (h.1 none 0 none).trans rfl⟩

/-! ## C9: single-resolver confirmation modal -/

/-- Counterexample to C9 as stated: after `confirm` (promise 1) followed by a
second `confirm` (promise 2), clicking the confirm button resolves only
promise 2; promise 1 is never resolved by any button click — the run's full
resolution list is `[(2, true)]` — contradicting the claim that the orphaned
promise "resolves when a button is eventually clicked". -/
theorem modal_orphaned_promise_never_resolves :
    (modalRun initModalState [.confirmCall 1 {}, .confirmCall 2 {},
      .clickConfirm]).2 = [(2, true)] ∧
    (¬ ∃ b, (1, b) ∈ (modalRun initModalState [.confirmCall 1 {},
      .confirmCall 2 {}, .clickConfirm]).2) := by
  constructor
  · rfl
  · rintro ⟨b, hb⟩
    rw [show (modalRun initModalState [.confirmCall 1 {}, .confirmCall 2 {},
      .clickConfirm]).2 = [(2, true)] from rfl] at hb
    simp at hb

/-- C9 as amended: the service holds at most one resolver at a time; a
`confirm` call stores the new promise's resolver and replaces the displayed
configuration; a button click settles exactly the held promise, `true` for
confirm and `false` for cancel; and a promise whose resolver is no longer
held — in particular one orphaned by a second `confirm` call — never
resolves on any later sequence of events that does not re-use its id:
the earlier promise stays pending forever. -/
theorem modal_single_resolver_orphan :
    (∀ s pid input,
      (modalStep s (.confirmCall pid input)).1.resolveCallback = some pid ∧
      (modalStep s (.confirmCall pid input)).1.config = mergeModalConfig input ∧
      (modalStep s (.confirmCall pid input)).2 = none) ∧
    (∀ s : ModalState, ∀ pid, s.resolveCallback = some pid →
      (modalStep s .clickConfirm).2 = some (pid, true) ∧
      (modalStep s .clickCancel).2 = some (pid, false) ∧
      (modalStep s .clickConfirm).1.resolveCallback = none ∧
      (modalStep s .clickCancel).1.resolveCallback = none) ∧
    (∀ (events : List ModalEvent) (s : ModalState) (pid : Nat),
      s.resolveCallback ≠ some pid →
      (∀ pid2 input, ModalEvent.confirmCall pid2 input ∈ events → pid2 ≠ pid) →
      ∀ b, (pid, b) ∉ (modalRun s events).2) := by
  refine ⟨fun s pid input => ⟨rfl, rfl, rfl⟩, fun s pid h => ?_, ?_⟩
  · refine ⟨?_, ?_, ?_, ?_⟩ <;> simp [modalStep, h]
  · intro events
    induction events with
    | nil =>
      intro s pid h1 h2 b
      simp [modalRun]
    | cons e es ih =>
      intro s pid h1 h2 b hmem
      rcases e with ⟨pid2, input⟩ | _ | _
      · have hne : pid2 ≠ pid := h2 pid2 input (List.mem_cons_self _ _)
        rw [modalRun] at hmem
        simp only [modalStep] at hmem
        simp only [Option.toList_none, List.nil_append] at hmem
        exact ih _ pid (by simp [hne]) (fun p i hp => h2 p i (List.mem_cons_of_mem _ hp)) b hmem
      · rw [modalRun] at hmem
        rcases hr : s.resolveCallback with _ | q
        · simp only [modalStep, hr] at hmem
          simp only [Option.toList_none, List.nil_append] at hmem
          exact ih _ pid (by simp) (fun p i hp => h2 p i (List.mem_cons_of_mem _ hp)) b hmem
        · have hq : q ≠ pid := fun hqq => h1 (by rw [hr, hqq])
          simp only [modalStep, hr] at hmem
          simp only [Option.toList_some, List.cons_append, List.nil_append,
            List.mem_cons] at hmem
          rcases hmem with hmem | hmem
          · exact hq (by injection hmem with hfst _; exact hfst.symm) |>.elim
          · exact ih _ pid (by simp) (fun p i hp => h2 p i (List.mem_cons_of_mem _ hp)) b hmem
      · rw [modalRun] at hmem
        rcases hr : s.resolveCallback with _ | q
        · simp only [modalStep, hr] at hmem
          simp only [Option.toList_none, List.nil_append] at hmem
          exact ih _ pid (by simp) (fun p i hp => h2 p i (List.mem_cons_of_mem _ hp)) b hmem
        · have hq : q ≠ pid := fun hqq => h1 (by rw [hr, hqq])
          simp only [modalStep, hr] at hmem
          simp only [Option.toList_some, List.cons_append, List.nil_append,
            List.mem_cons] at hmem
          rcases hmem with hmem | hmem
          · exact hq (by injection hmem with hfst _; exact hfst.symm) |>.elim
          · exact ih _ pid (by simp) (fun p i hp => h2 p i (List.mem_cons_of_mem _ hp)) b hmem

/-- Witness for the amended C9 at concrete inputs: a stored resolver settles
with `true` on confirm, and after two `confirm` calls the first promise (id 1)
never appears among the resolutions of a subsequent click. -/
theorem modal_single_resolver_orphan_witness :
    (modalStep initModalState (.confirmCall 7 {})).1.resolveCallback = some 7 ∧
    (modalStep (modalStep initModalState (.confirmCall 7 {})).1
      .clickConfirm).2 = some (7, true) ∧
    ∀ b, (1, b) ∉ (modalRun (modalStep (modalStep initModalState
      (.confirmCall 1 {})).1 (.confirmCall 2 {})).1 [.clickConfirm]).2 := by
  have h := modal_single_resolver_orphan
  refine ⟨(h.1 initModalState 7 {}).1, ?_, ?_⟩
  · exact (h.2.1 (modalStep initModalState (.confirmCall 7 {})).1 7
      (h.1 initModalState 7 {}).1).1
  · exact h.2.2 [.clickConfirm]
      (modalStep (modalStep initModalState (.confirmCall 1 {})).1
        (.confirmCall 2 {})).1 1 (by decide) (by simp)

end OpenWeb
